import Mathlib

/-!
Shallow embedding of `pyadtsecurehome` (`src/pyadtsecurehome/client.py`):
an HTTP client for the ADT Secure Home vendor API.  Python dictionaries are
modelled as association lists, the module-level `STD_PARAMS` dictionary is
carried in the explicit client state (it is process-wide mutable state in the
source, and every claim concerns a single client), and the HTTP transport is
modelled by an `HttpOutcome` input describing how the one request of an
operation resolves.
-/

set_option autoImplicit false

namespace Adt

/-- JSON values (Python `dict` / `list` / `str` / `int` / `bool` / `None`),
used both for response bodies and for request-parameter values. -/
inductive Json where
  | null : Json
  | bool (b : Bool) : Json
  | num (n : Int) : Json
  | str (s : String) : Json
  | arr (xs : List Json) : Json
  | obj (fields : List (String × Json)) : Json

/-- Lookup in a Python dictionary modelled as an association list. -/
def dictGet (d : List (String × Json)) (k : String) : Option Json :=
  (d.find? (fun p => p.1 = k)).map (fun p => p.2)

/-- Python dictionary assignment `d[k] = v`: overwrite in place (keeping the
key position) when the key exists, append otherwise. -/
def dictSet (d : List (String × Json)) (k : String) (v : Json) :
    List (String × Json) :=
  match d with
  | [] => [(k, v)]
  | p :: rest =>
      if p.1 = k then (p.1, v) :: rest else p :: dictSet rest k v

/-- The single quote character, used by Python `repr` of strings. -/
def sq : String := String.singleton (Char.ofNat 39)

mutual

/-- Python `str`/`repr` rendering of a JSON value, as interpolated by the
source's f-strings such as `f"Login error: {_json_result}"`. -/
def pyRepr : Json → String
  | Json.null => "None"
  | Json.bool b => if b then "True" else "False"
  | Json.num n => toString n
  | Json.str s => sq ++ s ++ sq
  | Json.arr xs => "[" ++ pyReprArr xs ++ "]"
  | Json.obj fs => "\x7b" ++ pyReprObj fs ++ "\x7d"

/-- Comma-separated rendering of a Python list body. -/
def pyReprArr : List Json → String
  | [] => ""
  | [x] => pyRepr x
  | x :: xs => pyRepr x ++ ", " ++ pyReprArr xs

/-- Comma-separated rendering of a Python dict body. -/
def pyReprObj : List (String × Json) → String
  | [] => ""
  | [(k, v)] => sq ++ k ++ sq ++ ": " ++ pyRepr v
  | (k, v) :: fs => sq ++ k ++ sq ++ ": " ++ pyRepr v ++ ", " ++ pyReprObj fs

end

/-- The exception taxonomy of the library (`exceptions.py` declares plain
exception classes; `client.py` decides which one each failure path raises).
`keyError` and `typeError` are Python's own untyped `KeyError`/`TypeError`,
raised by dictionary subscription on a missing key / non-mapping value. -/
inductive AdtError where
  | invalidURL (msg : String) : AdtError
  | httpError : AdtError
  | pyAdtSecureHomeError (msg : String) : AdtError
  | keyError (key : String) : AdtError
  | typeError : AdtError

/-- A completed HTTP response, as `requests` exposes it to the client:
a status code, the raw body text, and the result of attempting to decode the
body as JSON (`Except.error reason` models `req.json()` raising `ValueError`
with message `reason`). -/
structure HttpResponse where
  statusCode : Nat
  text : String
  jsonResult : Except String Json

/-- How the single HTTP request of an operation resolves: either a
transport-level `requests.ConnectionError`, or a completed response. -/
inductive HttpOutcome where
  | connError : HttpOutcome
  | ok (resp : HttpResponse) : HttpOutcome

/-- The transport session owned by the client (`requests.session()`),
reduced to what the source observes: being open and its default headers. -/
structure Session where
  isOpen : Bool
  headers : List (String × String)

/-- A request as handed to `requests.Session.get`/`post`. -/
structure Request where
  method : String
  url : String
  params : List (String × Json)
  allowRedirects : Bool
  timeout : Int

/-- Modelled from the spec: `REQUEST_HEADER` lives in `constants.py`, which is
not under `src/`; the spec describes it only as the default request headers
applied to every fresh session. -/
def REQUEST_HEADER : List (String × String) :=
  [("Content-Type", "application/json"), ("User-Agent", "okhttp/3.12.1")]

/-- Modelled from the spec: `DEFAULT_TIMEOUT` lives in `constants.py`, which is
not under `src/`; the spec says only that it is a constant default timeout in
seconds. -/
def DEFAULT_TIMEOUT : Int := 10

/-- Modelled from the spec: `STD_PARAMS` lives in `constants.py`, which is not
under `src/`.  The spec describes it as a base mapping of fields required on
every call (client identifiers, protocol/version tags); `client.py` reads its
`"imei"` key, so that key is present.  Per-call fields such as `email`,
`password`, `token`, `pin` are not part of the base mapping. -/
def STD_PARAMS : List (String × Json) :=
  [("imei", Json.str "358111222333444"),
   ("appVersion", Json.str "10.1.0"),
   ("deviceOS", Json.str "Android"),
   ("protocolVersion", Json.str "1")]

/-- The whole state an operation can read or write: the client instance's
attributes (`_email`, `_password`, `_session`, `_token`, `_timeout`) together
with the module-level `STD_PARAMS` dictionary, which the source aliases and
mutates in place on every call (`_params = STD_PARAMS`). -/
structure ClientState where
  email : Option String
  password : Option String
  session : Option Session
  stdParams : List (String × Json)
  token : Json
  timeout : Int

/-- Python's implicit conversion of a `str | None` attribute into the value
stored in a parameter dictionary. -/
def optJson : Option String → Json
  | some s => Json.str s
  | none => Json.null

/-- `close_session`: close any existing session, then open a fresh
`requests.session()` and apply the default headers. -/
def close_session (st : ClientState) : ClientState :=
  { st with session := some { isOpen := true, headers := REQUEST_HEADER } }

/-- `logout`: delegates to `close_session`. -/
def logout (st : ClientState) : ClientState :=
  close_session st

/-- `__init__`: store credentials, start with no session, call
`close_session`, then store the token and timeout.  The module-level
`STD_PARAMS` is the freshly imported constant. -/
def mkClient (email password : Option String) (timeout : Int)
    (token : Option String) : ClientState :=
  let st0 : ClientState :=
    { email := email, password := password, session := none,
      stdParams := STD_PARAMS, token := Json.null, timeout := 0 }
  let st1 := close_session st0
  { st1 with token := optJson token, timeout := timeout }

def BASE_URL : String := "ids.trintel.co.za/Inhep-Impl-1.0-SNAPSHOT/"

def API_ENDPOINT_LOGIN : String := "/auth/login"

def API_ENDPOINT_CHECK_APP_VERSION : String := "/auth/checkAppVersion"

def API_ENDPOINT_SITE_NOTIFICATIONS : String := "/device/getSiteNotifications"

def API_ENDPOINT_SYNC_INFO : String := "/device/getSyncInfo"

def API_ENDPOINT_STATE_INFO : String := "/device/getStateInfo"

def API_ENDPOINT_NOTIFICATION_SUBSCRIPTIONS : String :=
  "/device/getNotificationSubscriptions"

def API_ENDPOINT_GET_USER_PREFERANCES : String := "/user/getUserPreferences"

def API_ENDPOINT_SET_USER_PREFERANCE : String := "/user/setUserPreference"

def API_ENDPOINT_SECURITY_COMPANIES : String := "/security-companies/list"

def API_ENDPOINT_STORE_GCM_REGISTRATION_ID : String :=
  "/user/storeGcmRegistrationId"

def API_ENDPOINT_ARM_SITE : String := "/device/armSite"

/-- Subscription `j[k]` on a decoded JSON value, as Python evaluates it:
a key lookup raising `KeyError` on a mapping, `TypeError` otherwise. -/
def jsonIndex (j : Json) (k : String) : Except AdtError Json :=
  match j with
  | Json.obj fields =>
      match dictGet fields k with
      | some v => Except.ok v
      | none => Except.error (AdtError.keyError k)
  | _ => Except.error AdtError.typeError

/-- Python equality between a JSON value and a string literal, as in
`_json_result["status"] != "SUCCESS"` (values of other types are unequal). -/
def jsonEqStr (j : Json) (s : String) : Bool :=
  match j with
  | Json.str t => t = s
  | _ => false

/-- The uniform tail of every operation (`client.py` repeats these lines
verbatim in each method): classify the transport outcome — `ConnectionError`
becomes `InvalidURL`, `raise_for_status` (which raises exactly for status
codes in `[400, 600)`) becomes `HTTPError` — then decode JSON, failing with
the generic error carrying the decode reason and raw text, then check the
`status` field, failing with the generic error made of the operation-specific
message prefix and the rendered payload. -/
def classifyAndParse (outcome : HttpOutcome) (msgHead : String) :
    Except AdtError Json :=
  match outcome with
  | HttpOutcome.connError =>
      Except.error (AdtError.invalidURL "A Invalid URL or Proxy error occured")
  | HttpOutcome.ok resp =>
      if 400 ≤ resp.statusCode ∧ resp.statusCode < 600 then
        Except.error AdtError.httpError
      else
        match resp.jsonResult with
        | Except.error reason =>
            Except.error (AdtError.pyAdtSecureHomeError
              ("Impossible to decode response: " ++ reason
                ++ "\nResponse was: " ++ resp.text))
        | Except.ok j =>
            match jsonIndex j "status" with
            | Except.error e => Except.error e
            | Except.ok sv =>
                if jsonEqStr sv "SUCCESS" then Except.ok j
                else Except.error (AdtError.pyAdtSecureHomeError
                  (msgHead ++ pyRepr j))

/-- What an operation produces: its result (return value or raised
exception), the post-state, and the list of HTTP requests it issued. -/
structure OpResult where
  result : Except AdtError Json
  state : ClientState
  requests : List Request

/-- Issue the operation's request over the session (`allow_redirects=False`,
the client timeout, query params as mutated so far) and run the uniform
response-handling tail. -/
def performRequest (st : ClientState) (method endpoint : String)
    (outcome : HttpOutcome) (msgHead : String) : OpResult :=
  let req : Request :=
    { method := method, url := "https://" ++ BASE_URL ++ endpoint,
      params := st.stdParams, allowRedirects := false, timeout := st.timeout }
  { result := classifyAndParse outcome msgHead, state := st,
    requests := [req] }

/-- `login`: mutate the aliased `STD_PARAMS` with `email` and `password`,
issue a GET, and on success store `_json_result["token"]` into `_token` and
return the payload. -/
def login (st : ClientState) (outcome : HttpOutcome) : OpResult :=
  let p := dictSet (dictSet st.stdParams "email" (optJson st.email))
    "password" (optJson st.password)
  let r := performRequest { st with stdParams := p } "GET" API_ENDPOINT_LOGIN
    outcome "Login error: "
  match r.result with
  | Except.ok j =>
      match jsonIndex j "token" with
      | Except.ok tv =>
          { r with state := { r.state with token := tv } }
      | Except.error e => { r with result := Except.error e }
  | Except.error _ => r

/-- `check_app_version`: mutate the aliased `STD_PARAMS` with `token` and
`clientImei` (read back from the same dictionary's `"imei"` key, a `KeyError`
if absent), then issue a GET. -/
def check_app_version (st : ClientState) (outcome : HttpOutcome) : OpResult :=
  let p1 := dictSet st.stdParams "token" st.token
  match dictGet p1 "imei" with
  | none =>
      { result := Except.error (AdtError.keyError "imei"),
        state := { st with stdParams := p1 }, requests := [] }
  | some imei =>
      let p2 := dictSet p1 "clientImei" imei
      performRequest { st with stdParams := p2 } "GET"
        API_ENDPOINT_CHECK_APP_VERSION outcome
        "Error checking app version from api: "

/-- `site_notifications`: mutate the aliased `STD_PARAMS` with `token`,
then issue a GET. -/
def site_notifications (st : ClientState) (outcome : HttpOutcome) : OpResult :=
  let p := dictSet st.stdParams "token" st.token
  performRequest { st with stdParams := p } "GET"
    API_ENDPOINT_SITE_NOTIFICATIONS outcome
    "Error getting site notifications from api: "

/-- `get_sync_info`: mutate the aliased `STD_PARAMS` with `token`,
then issue a GET. -/
def get_sync_info (st : ClientState) (outcome : HttpOutcome) : OpResult :=
  let p := dictSet st.stdParams "token" st.token
  performRequest { st with stdParams := p } "GET" API_ENDPOINT_SYNC_INFO
    outcome "Error getting sync info from api: "

/-- `get_state_info`: mutate the aliased `STD_PARAMS` with `token`,
then issue a GET. -/
def get_state_info (st : ClientState) (outcome : HttpOutcome) : OpResult :=
  let p := dictSet st.stdParams "token" st.token
  performRequest { st with stdParams := p } "GET" API_ENDPOINT_STATE_INFO
    outcome "Error getting state info from api: "

/-- `get_notification_subscriptions`: mutate the aliased `STD_PARAMS` with
`token`, then issue a GET. -/
def get_notification_subscriptions (st : ClientState) (outcome : HttpOutcome) :
    OpResult :=
  let p := dictSet st.stdParams "token" st.token
  performRequest { st with stdParams := p } "GET"
    API_ENDPOINT_NOTIFICATION_SUBSCRIPTIONS outcome
    "Error getting notification subscriptions: "

/-- `get_user_preferences`: mutate the aliased `STD_PARAMS` with `token`,
then issue a GET. -/
def get_user_preferences (st : ClientState) (outcome : HttpOutcome) :
    OpResult :=
  let p := dictSet st.stdParams "token" st.token
  performRequest { st with stdParams := p } "GET"
    API_ENDPOINT_GET_USER_PREFERANCES outcome
    "Error getting user preferences: "

/-- `get_security_companies`: mutate the aliased `STD_PARAMS` with `token`,
then issue a GET. -/
def get_security_companies (st : ClientState) (outcome : HttpOutcome) :
    OpResult :=
  let p := dictSet st.stdParams "token" st.token
  performRequest { st with stdParams := p } "GET"
    API_ENDPOINT_SECURITY_COMPANIES outcome
    "Failed to get security companies: "

/-- `store_gcm_registrationid`: mutate the aliased `STD_PARAMS` with `token`
and `gcmId`, then issue a POST. -/
def store_gcm_registrationid (st : ClientState) (gcm_id : Json)
    (outcome : HttpOutcome) : OpResult :=
  let p := dictSet (dictSet st.stdParams "token" st.token) "gcmId" gcm_id
  performRequest { st with stdParams := p } "POST"
    API_ENDPOINT_STORE_GCM_REGISTRATION_ID outcome
    "Storing gcm id failed with: "

/-- `set_user_preference`: first validate `store_for` against
`["Arm", "Bypass"]`, raising the generic error before touching any
parameters; then mutate the aliased `STD_PARAMS` with `token`, `siteId`, the
composed `name`, and `preference_value`, then issue a POST. -/
def set_user_preference (st : ClientState) (site_id partition_id : String)
    (new_code : Json) (store_for : String) (outcome : HttpOutcome) :
    OpResult :=
  if store_for = "Arm" ∨ store_for = "Bypass" then
    let p1 := dictSet st.stdParams "token" st.token
    let p2 := dictSet p1 "siteId" (Json.str site_id)
    let p3 := dictSet p2 "name" (Json.str
      ("site." ++ site_id ++ ".partition." ++ partition_id ++ ".storeFor"
        ++ store_for))
    let p4 := dictSet p3 "preference_value" new_code
    performRequest { st with stdParams := p4 } "POST"
      API_ENDPOINT_SET_USER_PREFERANCE outcome
      "Set user preferance failed with: "
  else
    { result := Except.error (AdtError.pyAdtSecureHomeError
        "Invalid selection, choose between Arm or Bypass"),
      state := st, requests := [] }

/-- `arm_site`: mutate the aliased `STD_PARAMS` with `token`, `arm`, `pin`,
`partitionId` and `siteId`, then issue a GET. -/
def arm_site (st : ClientState) (arm : Bool) (pin partition_id site_id : Json)
    (outcome : HttpOutcome) : OpResult :=
  let p := dictSet (dictSet (dictSet (dictSet (dictSet st.stdParams
    "token" st.token) "arm" (Json.bool arm)) "pin" pin)
    "partitionId" partition_id) "siteId" site_id
  performRequest { st with stdParams := p } "GET" API_ENDPOINT_ARM_SITE
    outcome "Arm site failed: "

/-- The eleven public operations of the client. -/
inductive Op where
  | login : Op
  | check_app_version : Op
  | site_notifications : Op
  | get_sync_info : Op
  | get_state_info : Op
  | get_notification_subscriptions : Op
  | get_user_preferences : Op
  | get_security_companies : Op
  | store_gcm_registrationid : Op
  | set_user_preference : Op
  | arm_site : Op
deriving DecidableEq

/-- One bundle of arguments covering every operation's parameters, so that
properties shared by all operations can quantify over a single record. -/
structure OpArgs where
  gcmId : Json
  supSiteId : String
  supPartitionId : String
  supNewCode : Json
  supStoreFor : String
  armArm : Bool
  armPin : Json
  armPartitionId : Json
  armSiteId : Json

/-- Dispatch an operation on the client state with the given arguments and
transport outcome. -/
def runOp (op : Op) (a : OpArgs) (st : ClientState) (outcome : HttpOutcome) :
    OpResult :=
  match op with
  | Op.login => login st outcome
  | Op.check_app_version => check_app_version st outcome
  | Op.site_notifications => site_notifications st outcome
  | Op.get_sync_info => get_sync_info st outcome
  | Op.get_state_info => get_state_info st outcome
  | Op.get_notification_subscriptions =>
      get_notification_subscriptions st outcome
  | Op.get_user_preferences => get_user_preferences st outcome
  | Op.get_security_companies => get_security_companies st outcome
  | Op.store_gcm_registrationid => store_gcm_registrationid st a.gcmId outcome
  | Op.set_user_preference =>
      set_user_preference st a.supSiteId a.supPartitionId a.supNewCode
        a.supStoreFor outcome
  | Op.arm_site =>
      arm_site st a.armArm a.armPin a.armPartitionId a.armSiteId outcome

/-- The operation-specific message head of the generic error raised on a
non-`"SUCCESS"` status, as written in each method's f-string. -/
def errMsgHead : Op → String
  | Op.login => "Login error: "
  | Op.check_app_version => "Error checking app version from api: "
  | Op.site_notifications => "Error getting site notifications from api: "
  | Op.get_sync_info => "Error getting sync info from api: "
  | Op.get_state_info => "Error getting state info from api: "
  | Op.get_notification_subscriptions =>
      "Error getting notification subscriptions: "
  | Op.get_user_preferences => "Error getting user preferences: "
  | Op.get_security_companies => "Failed to get security companies: "
  | Op.store_gcm_registrationid => "Storing gcm id failed with: "
  | Op.set_user_preference => "Set user preferance failed with: "
  | Op.arm_site => "Arm site failed: "

/-- Whether the operation reaches its HTTP request at all:
`set_user_preference` stops early on an invalid `store_for`, and
`check_app_version` stops early with a `KeyError` when the parameter
dictionary has no `"imei"` key.  Every other operation always issues its
request. -/
def issuesRequest (op : Op) (a : OpArgs) (st : ClientState) : Bool :=
  match op with
  | Op.set_user_preference =>
      a.supStoreFor == "Arm" || a.supStoreFor == "Bypass"
  | Op.check_app_version =>
      (dictGet (dictSet st.stdParams "token" st.token) "imei").isSome
  | _ => true

/-- Keys of a parameter dictionary. -/
def dictKeys (d : List (String × Json)) : List String :=
  d.map (fun p => p.1)

theorem dictGet_cons (p : String × Json) (d : List (String × Json))
    (k : String) :
    dictGet (p :: d) k = if p.1 = k then some p.2 else dictGet d k := by
  by_cases h : p.1 = k <;> simp [dictGet, List.find?, h]

theorem dictSet_cons (p : String × Json) (d : List (String × Json))
    (k : String) (v : Json) :
    dictSet (p :: d) k v =
      if p.1 = k then (p.1, v) :: d else p :: dictSet d k v := rfl

theorem dictGet_dictSet_self (d : List (String × Json)) (k : String)
    (v : Json) : dictGet (dictSet d k v) k = some v := by
  induction d with
  | nil => simp [dictGet, dictSet, List.find?]
  | cons hd tl ih =>
      by_cases h : hd.1 = k
      · simp [dictSet_cons, dictGet_cons, h]
      · simp [dictSet_cons, dictGet_cons, h, ih]

theorem dictGet_dictSet_ne (d : List (String × Json)) (k k1 : String)
    (v : Json) (h : k1 ≠ k) :
    dictGet (dictSet d k v) k1 = dictGet d k1 := by
  induction d with
  | nil => simp [dictGet, dictSet, dictGet_cons, Ne.symm h, List.find?]
  | cons hd tl ih =>
      by_cases h2 : hd.1 = k
      · have h3 : ¬hd.1 = k1 := by rw [h2]; exact Ne.symm h
        simp [dictSet_cons, dictGet_cons, h2, h3, Ne.symm h]
      · by_cases h3 : hd.1 = k1 <;>
          simp [dictSet_cons, dictGet_cons, h2, h3, h, ih]

/-- The extra step `login` performs on the executor's result: on a returned
payload it looks up `"token"` (propagating the `KeyError` when absent) and
otherwise propagates the error unchanged. -/
def loginFinish (r : Except AdtError Json) : Except AdtError Json :=
  match r with
  | Except.ok j =>
      match jsonIndex j "token" with
      | Except.ok _ => Except.ok j
      | Except.error e => Except.error e
  | Except.error e => Except.error e

theorem classifyAndParse_conn (m : String) :
    classifyAndParse HttpOutcome.connError m =
      Except.error (AdtError.invalidURL "A Invalid URL or Proxy error occured")
    := rfl

theorem classifyAndParse_http (resp : HttpResponse) (m : String)
    (h1 : 400 ≤ resp.statusCode) (h2 : resp.statusCode < 600) :
    classifyAndParse (HttpOutcome.ok resp) m = Except.error AdtError.httpError
    := by
  simp [classifyAndParse, h1, h2]

theorem classifyAndParse_badjson (resp : HttpResponse) (m reason : String)
    (h : ¬(400 ≤ resp.statusCode ∧ resp.statusCode < 600))
    (hj : resp.jsonResult = Except.error reason) :
    classifyAndParse (HttpOutcome.ok resp) m =
      Except.error (AdtError.pyAdtSecureHomeError
        ("Impossible to decode response: " ++ reason
          ++ "\nResponse was: " ++ resp.text)) := by
  simp [classifyAndParse, h, hj]

theorem classifyAndParse_status (resp : HttpResponse) (m : String) (j sv : Json)
    (h : ¬(400 ≤ resp.statusCode ∧ resp.statusCode < 600))
    (hj : resp.jsonResult = Except.ok j)
    (hs : jsonIndex j "status" = Except.ok sv) :
    classifyAndParse (HttpOutcome.ok resp) m =
      (if jsonEqStr sv "SUCCESS" then Except.ok j
       else Except.error (AdtError.pyAdtSecureHomeError (m ++ pyRepr j))) := by
  simp [classifyAndParse, h, hj, hs]

theorem classifyAndParse_nostatus (resp : HttpResponse) (m : String) (j : Json)
    (e : AdtError) (h : ¬(400 ≤ resp.statusCode ∧ resp.statusCode < 600))
    (hj : resp.jsonResult = Except.ok j)
    (hs : jsonIndex j "status" = Except.error e) :
    classifyAndParse (HttpOutcome.ok resp) m = Except.error e := by
  simp [classifyAndParse, h, hj, hs]

/-- When an operation reaches its HTTP request, its result is the uniform
executor result under that operation's message head, with `login` applying
its extra token-lookup step. -/
theorem runOp_result (op : Op) (a : OpArgs) (st : ClientState)
    (o : HttpOutcome) (h : issuesRequest op a st = true) :
    (runOp op a st o).result =
      (if op = Op.login then loginFinish (classifyAndParse o (errMsgHead op))
       else classifyAndParse o (errMsgHead op)) := by
  cases op with
  | login =>
      simp only [runOp, errMsgHead, if_pos rfl, login, performRequest,
        loginFinish]
      cases hc : classifyAndParse o "Login error: " with
      | ok j => cases ht : jsonIndex j "token" <;> simp [ht]
      | error e => simp
  | check_app_version =>
      simp only [issuesRequest, Option.isSome_iff_exists] at h
      obtain ⟨imei, hi⟩ := h
      simp [runOp, check_app_version, performRequest, errMsgHead, hi]
  | site_notifications =>
      simp [runOp, site_notifications, performRequest, errMsgHead]
  | get_sync_info =>
      simp [runOp, get_sync_info, performRequest, errMsgHead]
  | get_state_info =>
      simp [runOp, get_state_info, performRequest, errMsgHead]
  | get_notification_subscriptions =>
      simp [runOp, get_notification_subscriptions, performRequest, errMsgHead]
  | get_user_preferences =>
      simp [runOp, get_user_preferences, performRequest, errMsgHead]
  | get_security_companies =>
      simp [runOp, get_security_companies, performRequest, errMsgHead]
  | store_gcm_registrationid =>
      simp [runOp, store_gcm_registrationid, performRequest, errMsgHead]
  | set_user_preference =>
      simp only [issuesRequest, Bool.or_eq_true, beq_iff_eq] at h
      simp [runOp, set_user_preference, performRequest, errMsgHead, if_pos h]
  | arm_site =>
      simp [runOp, arm_site, performRequest, errMsgHead]

/-- When an operation reaches its HTTP request, it issues exactly one. -/
theorem runOp_issues (op : Op) (a : OpArgs) (st : ClientState)
    (o : HttpOutcome) (h : issuesRequest op a st = true) :
    (runOp op a st o).requests ≠ [] := by
  cases op with
  | login =>
      simp only [runOp, login, performRequest]
      cases hc : classifyAndParse o "Login error: " with
      | ok j => cases ht : jsonIndex j "token" <;> simp [ht]
      | error e => simp
  | check_app_version =>
      simp only [issuesRequest, Option.isSome_iff_exists] at h
      obtain ⟨imei, hi⟩ := h
      simp [runOp, check_app_version, performRequest, hi]
  | site_notifications => simp [runOp, site_notifications, performRequest]
  | get_sync_info => simp [runOp, get_sync_info, performRequest]
  | get_state_info => simp [runOp, get_state_info, performRequest]
  | get_notification_subscriptions =>
      simp [runOp, get_notification_subscriptions, performRequest]
  | get_user_preferences => simp [runOp, get_user_preferences, performRequest]
  | get_security_companies =>
      simp [runOp, get_security_companies, performRequest]
  | store_gcm_registrationid =>
      simp [runOp, store_gcm_registrationid, performRequest]
  | set_user_preference =>
      simp only [issuesRequest, Bool.or_eq_true, beq_iff_eq] at h
      simp [runOp, set_user_preference, performRequest, if_pos h]
  | arm_site => simp [runOp, arm_site, performRequest]

/-- A client as the home-automation caller builds it: credentials given,
default timeout, no token yet. -/
def client0 : ClientState :=
  mkClient (some "user@example.com") (some "hunter2") 10 none

/-- One concrete argument bundle for the operations. -/
def args0 : OpArgs :=
  { gcmId := Json.null, supSiteId := "1", supPartitionId := "2",
    supNewCode := Json.num 1234, supStoreFor := "Arm", armArm := true,
    armPin := Json.num 9999, armPartitionId := Json.num 1,
    armSiteId := Json.num 7 }

/-- Successful response body without extra fields. -/
def okBody : Json := Json.obj [("status", Json.str "SUCCESS")]

/-- Successful login response body carrying a token. -/
def tokenBody : Json :=
  Json.obj [("status", Json.str "SUCCESS"), ("token", Json.str "abc123")]

/-- Domain-failure response body. -/
def failBody : Json := Json.obj [("status", Json.str "FAILED")]

/-- JSON body that is a mapping but has no `status` key. -/
def noStatusBody : Json := Json.obj [("ok", Json.bool true)]

/-- A 200 response whose body is `okBody`. -/
def respOk : HttpResponse :=
  { statusCode := 200, text := "ok", jsonResult := Except.ok okBody }

/-- A 200 response whose body is `tokenBody`. -/
def respToken : HttpResponse :=
  { statusCode := 200, text := "tk", jsonResult := Except.ok tokenBody }

/-- A 200 response whose body is `failBody`. -/
def respFail : HttpResponse :=
  { statusCode := 200, text := "fl", jsonResult := Except.ok failBody }

/-- A 200 response whose body is `noStatusBody`. -/
def respNoStatus : HttpResponse :=
  { statusCode := 200, text := "ns", jsonResult := Except.ok noStatusBody }

/-- A 302 redirect response (redirects are disabled, so the client sees it)
whose body happens to decode as a successful payload. -/
def resp302 : HttpResponse :=
  { statusCode := 302, text := "moved", jsonResult := Except.ok okBody }

/-- A 404 response. -/
def resp404 : HttpResponse :=
  { statusCode := 404, text := "nf",
    jsonResult := Except.error "Expecting value: line 1 column 1 (char 0)" }

/-- A 200 response whose body is not JSON. -/
def respBad : HttpResponse :=
  { statusCode := 200, text := "<html>oops</html>",
    jsonResult := Except.error "Expecting value: line 1 column 1 (char 0)" }

/-- Claim C8: for every public operation that reaches its HTTP request, a
transport-level connection failure surfaces as `InvalidURL` (with the fixed
message), hence never as the generic client error nor as a raw transport
exception. -/
theorem C8_conn_error_invalid_url (op : Op) (a : OpArgs) (st : ClientState)
    (h : issuesRequest op a st = true) :
    (runOp op a st HttpOutcome.connError).result =
      Except.error
        (AdtError.invalidURL "A Invalid URL or Proxy error occured") := by
  rw [runOp_result op a st _ h, classifyAndParse_conn]
  by_cases hop : op = Op.login <;> simp [hop, loginFinish]

/-- Witness for C8 at `arm_site` on a concrete client. -/
theorem C8_conn_error_invalid_url_witness :
    (runOp Op.arm_site args0 client0 HttpOutcome.connError).result =
      Except.error
        (AdtError.invalidURL "A Invalid URL or Proxy error occured") :=
  C8_conn_error_invalid_url Op.arm_site args0 client0 rfl

/-- Claim C2, counterexample to the claim as stated: a 302 response is not
2xx, yet the operation does not fail with `HTTPError` —
`raise_for_status` only raises for codes in `[400, 600)`, so the body is
parsed and returned as a success. -/
theorem C2_counterexample :
    (runOp Op.site_notifications args0 client0
        (HttpOutcome.ok resp302)).result = Except.ok okBody ∧
    (runOp Op.site_notifications args0 client0
        (HttpOutcome.ok resp302)).result ≠
      Except.error AdtError.httpError :=
  ⟨rfl, fun hc => Except.noConfusion hc⟩

/-- Claim C2 as amended: for every public operation that reaches its HTTP
request, a completed response with status code in `[400, 600)` makes the
operation fail with `HTTPError`, and it does so whatever the response body
holds — i.e. before any attempt to parse the body as JSON. -/
theorem C2_http_error (op : Op) (a : OpArgs) (st : ClientState)
    (resp : HttpResponse) (h : issuesRequest op a st = true)
    (h1 : 400 ≤ resp.statusCode) (h2 : resp.statusCode < 600) :
    (runOp op a st (HttpOutcome.ok resp)).result =
      Except.error AdtError.httpError := by
  rw [runOp_result op a st _ h, classifyAndParse_http resp _ h1 h2]
  by_cases hop : op = Op.login <;> simp [hop, loginFinish]

/-- Witness for C2 at `login` on a concrete 404 response. -/
theorem C2_http_error_witness :
    (runOp Op.login args0 client0 (HttpOutcome.ok resp404)).result =
      Except.error AdtError.httpError :=
  C2_http_error Op.login args0 client0 resp404 rfl (by decide) (by decide)

/-- Claim C7: for every public operation that reaches its HTTP request, a 2xx
response whose body fails to decode as JSON makes the operation fail with the
generic client error whose message carries the decode-failure reason and the
raw body text. -/
theorem C7_bad_json (op : Op) (a : OpArgs) (st : ClientState)
    (resp : HttpResponse) (reason : String)
    (h : issuesRequest op a st = true) (h1 : 200 ≤ resp.statusCode)
    (h2 : resp.statusCode < 300)
    (hj : resp.jsonResult = Except.error reason) :
    (runOp op a st (HttpOutcome.ok resp)).result =
      Except.error (AdtError.pyAdtSecureHomeError
        ("Impossible to decode response: " ++ reason
          ++ "\nResponse was: " ++ resp.text)) := by
  have hn : ¬(400 ≤ resp.statusCode ∧ resp.statusCode < 600) := by omega
  rw [runOp_result op a st _ h, classifyAndParse_badjson resp _ reason hn hj]
  by_cases hop : op = Op.login <;> simp [hop, loginFinish]

/-- Witness for C7 at `get_sync_info` on a concrete HTML response. -/
theorem C7_bad_json_witness :
    (runOp Op.get_sync_info args0 client0 (HttpOutcome.ok respBad)).result =
      Except.error (AdtError.pyAdtSecureHomeError
        ("Impossible to decode response: "
          ++ "Expecting value: line 1 column 1 (char 0)"
          ++ "\nResponse was: " ++ respBad.text)) :=
  C7_bad_json Op.get_sync_info args0 client0 respBad _ rfl (by decide)
    (by decide) rfl

/-- Claim C3, counterexample to the claim as stated: `login` on the body
`{"status": "SUCCESS"}` does not return the parsed payload unchanged — it
raises `KeyError` on the missing `token` field. -/
theorem C3_counterexample :
    (login client0 (HttpOutcome.ok respOk)).result =
      Except.error (AdtError.keyError "token") ∧
    (login client0 (HttpOutcome.ok respOk)).result ≠ Except.ok okBody :=
  ⟨rfl, fun hc => Except.noConfusion hc⟩

/-- Claim C3 as amended: for every public operation that reaches its HTTP
request, a decoded body whose `status` field is not the string `"SUCCESS"`
yields the generic client error made of the operation-specific prefix and the
rendered payload (never a success value); a body whose `status` field equals
`"SUCCESS"` is returned unchanged, except that `login` additionally requires
a `token` field to be present. -/
theorem C3_status_check (op : Op) (a : OpArgs) (st : ClientState)
    (resp : HttpResponse) (j sv : Json)
    (h : issuesRequest op a st = true)
    (hn : ¬(400 ≤ resp.statusCode ∧ resp.statusCode < 600))
    (hj : resp.jsonResult = Except.ok j)
    (hs : jsonIndex j "status" = Except.ok sv) :
    (jsonEqStr sv "SUCCESS" = false →
      (runOp op a st (HttpOutcome.ok resp)).result =
        Except.error (AdtError.pyAdtSecureHomeError
          (errMsgHead op ++ pyRepr j))) ∧
    (jsonEqStr sv "SUCCESS" = true →
      (op = Op.login → ∃ tv, jsonIndex j "token" = Except.ok tv) →
      (runOp op a st (HttpOutcome.ok resp)).result = Except.ok j) := by
  constructor
  · intro hne
    rw [runOp_result op a st _ h, classifyAndParse_status resp _ j sv hn hj hs]
    by_cases hop : op = Op.login <;> simp [hop, hne, loginFinish]
  · intro heq htok
    rw [runOp_result op a st _ h, classifyAndParse_status resp _ j sv hn hj hs]
    by_cases hop : op = Op.login
    · obtain ⟨tv, htv⟩ := htok hop
      simp [hop, heq, loginFinish, htv]
    · simp [hop, heq]

/-- Witness for C3 at `check_app_version` on a concrete `FAILED` body. -/
theorem C3_status_check_witness :
    (runOp Op.check_app_version args0 client0
        (HttpOutcome.ok respFail)).result =
      Except.error (AdtError.pyAdtSecureHomeError
        (errMsgHead Op.check_app_version ++ pyRepr failBody)) :=
  (C3_status_check Op.check_app_version args0 client0 respFail failBody
    (Json.str "FAILED") rfl (by decide) rfl rfl).1 rfl

/-- Claim C10: for every public operation that reaches its HTTP request, a
decoded mapping without a `status` key raises Python's untyped `KeyError` —
not `InvalidURL`, `HTTPError` or the generic client error — and `login` on a
`"SUCCESS"` mapping without a `token` key likewise raises `KeyError`. -/
theorem C10_key_errors :
    (∀ (op : Op) (a : OpArgs) (st : ClientState) (resp : HttpResponse)
        (fs : List (String × Json)),
      issuesRequest op a st = true →
      ¬(400 ≤ resp.statusCode ∧ resp.statusCode < 600) →
      resp.jsonResult = Except.ok (Json.obj fs) →
      dictGet fs "status" = none →
      (runOp op a st (HttpOutcome.ok resp)).result =
        Except.error (AdtError.keyError "status")) ∧
    (∀ (st : ClientState) (resp : HttpResponse)
        (fs : List (String × Json)),
      ¬(400 ≤ resp.statusCode ∧ resp.statusCode < 600) →
      resp.jsonResult = Except.ok (Json.obj fs) →
      dictGet fs "status" = some (Json.str "SUCCESS") →
      dictGet fs "token" = none →
      (login st (HttpOutcome.ok resp)).result =
        Except.error (AdtError.keyError "token")) := by
  constructor
  · intro op a st resp fs h hn hj hs
    have hidx : jsonIndex (Json.obj fs) "status" =
        Except.error (AdtError.keyError "status") := by
      simp [jsonIndex, hs]
    rw [runOp_result op a st _ h,
      classifyAndParse_nostatus resp _ _ _ hn hj hidx]
    by_cases hop : op = Op.login <;> simp [hop, loginFinish]
  · intro st resp fs hn hj hs ht
    have h1 := runOp_result Op.login args0 st (HttpOutcome.ok resp) rfl
    simp only [runOp, if_pos] at h1
    rw [h1]
    have hstat : jsonIndex (Json.obj fs) "status" =
        Except.ok (Json.str "SUCCESS") := by
      simp [jsonIndex, hs]
    rw [classifyAndParse_status resp _ _ _ hn hj hstat]
    simp [jsonEqStr, loginFinish, jsonIndex, ht]

/-- Witness for C10: a `status`-less mapping on `get_state_info`, and a
token-less `"SUCCESS"` mapping on `login`. -/
theorem C10_key_errors_witness :
    (runOp Op.get_state_info args0 client0
        (HttpOutcome.ok respNoStatus)).result =
      Except.error (AdtError.keyError "status") ∧
    (login client0 (HttpOutcome.ok respOk)).result =
      Except.error (AdtError.keyError "token") :=
  ⟨C10_key_errors.1 Op.get_state_info args0 client0 respNoStatus
      [("ok", Json.bool true)] rfl (by decide) rfl rfl,
    C10_key_errors.2 client0 respOk [("status", Json.str "SUCCESS")]
      (by decide) rfl rfl rfl⟩

/-- Claim C5: `set_user_preference` with a `store_for` outside
`["Arm", "Bypass"]` raises the generic client error at once: no parameter of
the base mapping is touched, the state is unchanged, and no HTTP request is
issued. -/
theorem C5_invalid_store_for (st : ClientState)
    (site_id partition_id : String) (new_code : Json) (sf : String)
    (o : HttpOutcome) (h1 : sf ≠ "Arm") (h2 : sf ≠ "Bypass") :
    set_user_preference st site_id partition_id new_code sf o =
      { result := Except.error (AdtError.pyAdtSecureHomeError
          "Invalid selection, choose between Arm or Bypass"),
        state := st, requests := [] } := by
  simp [set_user_preference, h1, h2]

/-- Witness for C5 at `store_for = "Invalid"`. -/
theorem C5_invalid_store_for_witness :
    set_user_preference client0 "1" "2" (Json.num 1234) "Invalid"
        HttpOutcome.connError =
      { result := Except.error (AdtError.pyAdtSecureHomeError
          "Invalid selection, choose between Arm or Bypass"),
        state := client0, requests := [] } :=
  C5_invalid_store_for client0 "1" "2" (Json.num 1234) "Invalid"
    HttpOutcome.connError (by decide) (by decide)

/-- Claim C6: `set_user_preference(site_id="1", partition_id="2",
new_code=1234, store_for="Arm")` sends exactly one request, whose `name`
parameter is the composed string `"site.1.partition.2.storeForArm"`. -/
theorem C6_name_param (st : ClientState) (o : HttpOutcome) :
    ∃ r : Request,
      (set_user_preference st "1" "2" (Json.num 1234) "Arm" o).requests =
        [r] ∧
      dictGet r.params "name" =
        some (Json.str "site.1.partition.2.storeForArm") := by
  refine ⟨_, rfl, ?_⟩
  rw [dictGet_dictSet_ne _ _ _ _ (by decide), dictGet_dictSet_self]
  rfl

/-- Claim C9: from any client state — in particular one with no prior
session, where `close_session` still succeeds — both `close_session` and
`logout` leave a fresh open session with the default headers applied, change
nothing else (token, credentials, timeout, parameter mapping), and the next
request on the reset client succeeds given a mocked successful response. -/
theorem C9_session_reset (st : ClientState) :
    (close_session st).session =
      some { isOpen := true, headers := REQUEST_HEADER } ∧
    logout st = close_session st ∧
    (close_session st).email = st.email ∧
    (close_session st).password = st.password ∧
    (close_session st).token = st.token ∧
    (close_session st).timeout = st.timeout ∧
    (close_session st).stdParams = st.stdParams ∧
    (site_notifications (close_session st) (HttpOutcome.ok respOk)).result =
      Except.ok okBody :=
  ⟨rfl, rfl, rfl, rfl, rfl, rfl, rfl, rfl⟩

/-- The state after `login` succeeds on `client0`. -/
def afterLogin : OpResult := login client0 (HttpOutcome.ok respToken)

/-- An `arm_site` call made right after that login, with its own arguments. -/
def afterArm : OpResult :=
  arm_site afterLogin.state true (Json.num 9999) (Json.num 1) (Json.num 7)
    (HttpOutcome.ok respOk)

/-- Claim C1, evaluated at the failing input: `email` and `password` are not
in the base parameter mapping, yet after `login` ran, the request sent by the
next operation (`arm_site`) still carries both — the source binds
`_params = STD_PARAMS` by reference and mutates the shared dictionary in
place, so per-call fields leak into every later call. -/
theorem C1_param_leak :
    dictGet STD_PARAMS "email" = none ∧
    dictGet STD_PARAMS "password" = none ∧
    ∃ r : Request, afterArm.requests = [r] ∧
      dictGet r.params "email" = some (Json.str "user@example.com") ∧
      dictGet r.params "password" = some (Json.str "hunter2") :=
  ⟨rfl, rfl, _, rfl, rfl, rfl⟩

/-- Claim C4, evaluated at the failing input: `login` on
`{"status":"SUCCESS","token":"abc123"}` does store `"abc123"` and return the
full body, and a failing `login` leaves the token unchanged — but storing the
token is not its only state change: the shared base parameter mapping, which
contains no `email` key at import time, holds the client's email after
`login` ran. -/
theorem C4_login_effects :
    afterLogin.result = Except.ok tokenBody ∧
    afterLogin.state.token = Json.str "abc123" ∧
    (login client0 (HttpOutcome.ok respFail)).state.token = Json.null ∧
    dictGet STD_PARAMS "email" = none ∧
    dictGet afterLogin.state.stdParams "email" =
      some (Json.str "user@example.com") :=
  ⟨rfl, rfl, rfl, rfl, rfl⟩

end Adt
